import Mathlib

/-!
Shallow embedding of `src/lib/sqlalchemy_sandbox.py`: a single `students`
table managed through a SQLAlchemy session over an in-memory SQLite engine.

The `Student` model declares (lines 15-26 and 34-39 of the source) a
`PrimaryKeyConstraint` on `id` (named id_pk), a `UniqueConstraint` on `email`
(named unique-email), and a `CheckConstraint` `grade BETWEEN 1 AND 12`
(named grade_between_1_and_12), over columns `id : Integer`,
`name : String`, `email : String(55)`, `grade : Integer`,
`birthday : DateTime`, `enrolled_date : DateTime` with
`default=datetime.now()` — note the call: the default value is computed once,
when the class body is evaluated at module load, and that single timestamp is
used for every inserted row.

The store semantics embedded here is the behaviour of the engine the script
creates, an in-memory SQLite database:
  * a CHECK constraint fails only when its SQL expression evaluates to false;
    `NULL BETWEEN 1 AND 12` is NULL, so a NULL grade passes;
  * UNIQUE compares non-NULL values; NULL emails never collide;
  * an INTEGER PRIMARY KEY without AUTOINCREMENT is assigned
    `max(existing id) + 1` (1 for an empty table), so ids can be reused
    after the row holding the maximum id is deleted;
  * `String(55)` is DDL metadata only: SQLite stores text of any length and
    neither the engine nor the ORM enforces the declared length;
  * a failed `session.commit()` rolls the transaction back, leaving the
    committed state unchanged;
  * `ORDER BY ... DESC` sorts with NULL below every non-NULL value.

Dates are modelled as abstract timestamps (`Nat`); machine integers in the
script never approach any word-size bound, so `Int`/`Nat` are used directly.
-/

/-- A row of the `students` table / a `Student` ORM object.  Every column of
the model is nullable except the primary key, which is `none` exactly while
the object is not yet persisted. -/
structure Student where
  id : Option Nat
  name : Option String
  email : Option String
  grade : Option Int
  birthday : Option Nat
  enrolled_date : Option Nat
deriving DecidableEq, Repr

/-- The in-memory database: the committed rows of `students`, together with
the timestamp captured by the `datetime.now()` call in the class body
(`default=datetime.now()`, source line 39) when the module was loaded. -/
structure Store where
  rows : List Student
  loadTime : Nat
deriving DecidableEq, Repr

/-- The error signalled when a commit or update violates a table constraint
(SQLAlchemy raises `IntegrityError` wrapping SQLite's constraint failure). -/
inductive DbError where
  | ConstraintViolation
deriving DecidableEq, Repr

/-- `Student(name=..., email=..., grade=..., birthday=...)`: constructing an
ORM object in memory.  `id` is unset, and `enrolled_date` is unset until the
flush applies the column default.  The constructor does not read the clock:
the default timestamp was fixed at module load. -/
def constructStudent (name email : Option String) (grade : Option Int)
    (birthday : Option Nat) : Student :=
  { id := none, name := name, email := email, grade := grade,
    birthday := birthday, enrolled_date := none }

/-- `CheckConstraint('grade BETWEEN 1 AND 12')` under SQL three-valued logic:
the constraint fails only when the expression is false, and on NULL it is
NULL, hence not a violation. -/
def gradeCheckOk (grade : Option Int) : Bool :=
  match grade with
  | none => true
  | some g => decide (1 ≤ g ∧ g ≤ 12)

/-- `UniqueConstraint('email')`: a non-NULL email must differ from the email
of every existing row; NULLs never collide in SQL UNIQUE. -/
def emailOk (rows : List Student) (email : Option String) : Bool :=
  match email with
  | none => true
  | some v => rows.all fun r => decide (r.email ≠ some v)

/-- The largest id currently in the table (0 when empty; stored rows always
carry `some` id, `getD 0` only discharges the option). -/
def maxId (rows : List Student) : Nat :=
  rows.foldl (fun m r => max m (r.id.getD 0)) 0

/-- SQLite's rowid assignment for an INTEGER PRIMARY KEY declared without
AUTOINCREMENT: one more than the largest existing id. -/
def nextId (rows : List Student) : Nat :=
  maxId rows + 1

/-- Column defaults applied at flush time: an unset `enrolled_date` receives
the single timestamp computed at module load (`default=datetime.now()`). -/
def applyDefaults (db : Store) (s : Student) : Student :=
  { s with enrolled_date :=
      match s.enrolled_date with
      | none => some db.loadTime
      | some t => some t }

/-- Flushing one staged INSERT: defaults are applied, the id is assigned when
unset (`s.id.getD (nextId db.rows)`), and the row is appended provided the
grade CHECK, the email UNIQUE constraint and the primary key all hold.  The
declared length of the email column is not consulted: SQLite does not
enforce `String(55)`. -/
def insertStudent (db : Store) (s : Student) : Except DbError Store :=
  if gradeCheckOk s.grade && emailOk db.rows s.email
      && db.rows.all (fun r => decide (r.id ≠ some (s.id.getD (nextId db.rows)))) then
    Except.ok { db with rows :=
      db.rows ++ [{ applyDefaults db s with id := some (s.id.getD (nextId db.rows)) }] }
  else
    Except.error DbError.ConstraintViolation

/-- `session.add(...)` then `session.commit()`: the staged inserts are flushed
in order inside one transaction.  If any insert violates a constraint the
commit raises and the transaction is rolled back, so the returned store is
the original one; on success the new store is returned with no error. -/
def commitStaged (db : Store) (staged : List Student) : Store × Option DbError :=
  match commitLoop db staged with
  | Except.ok db' => (db', none)
  | Except.error e => (db, some e)
where
  commitLoop (db : Store) : List Student → Except DbError Store
    | [] => Except.ok db
    | s :: rest =>
      match insertStudent db s with
      | Except.ok db' => commitLoop db' rest
      | Except.error e => Except.error e

/-- The updated grade of one row under
`session.query(Student).update({Student.grade: Student.grade + 1})`:
in SQL, `NULL + 1` is NULL. -/
def incGrade (s : Student) : Student :=
  { s with grade := s.grade.map (· + 1) }

/-- The bulk UPDATE statement of source line 140.  SQLite checks the CHECK
constraint on every updated row; if any violates it, the whole statement
aborts and its changes are rolled back, leaving the store unchanged. -/
def updateAllGradesPlusOne (db : Store) : Store × Option DbError :=
  if (db.rows.map incGrade).all (fun r => gradeCheckOk r.grade) then
    ({ db with rows := db.rows.map incGrade }, none)
  else
    (db, some DbError.ConstraintViolation)

/-- `session.delete(student)` followed by `session.commit()`: the row with
the object's primary key is removed. -/
def deleteStudent (db : Store) (s : Student) : Store :=
  { db with rows := db.rows.filter fun r => decide (r.id ≠ s.id) }

/-- `session.query(Student)` with no filter. -/
def queryAll (db : Store) : List Student :=
  db.rows

/-- `session.query(Student).filter(Student.id == i)`. -/
def queryById (db : Store) (i : Option Nat) : List Student :=
  db.rows.filter fun r => decide (r.id = i)

/-- `session.query(Student).filter(Student.name == n)` (source line 147). -/
def queryByName (db : Store) (n : String) : List Student :=
  db.rows.filter fun r => decide (r.name = some n)

/-- SQLite's ordering on a nullable integer column: NULL sorts below every
value.  `gradeGE a b` means `a` is at least `b` in that order, i.e. `a` may
come first in a descending sort. -/
def gradeGE (a b : Option Int) : Bool :=
  match a, b with
  | _, none => true
  | none, some _ => false
  | some x, some y => decide (y ≤ x)

/-- The descending-sort relation used by
`order_by(desc(Student.grade))` (source lines 118-120). -/
def gradeDescRel (a b : Student) : Prop :=
  gradeGE a.grade b.grade = true

instance : DecidableRel gradeDescRel := fun _ _ =>
  inferInstanceAs (Decidable (_ = true))

/-- `order_by(desc(Student.grade))`: the rows sorted so that larger grades
come first (NULL grades last). -/
def orderByGradeDesc (rows : List Student) : List Student :=
  rows.insertionSort gradeDescRel

/-- `limit(n)` (source line 120): the first `n` rows of the current order. -/
def limit (n : Nat) (rows : List Student) : List Student :=
  rows.take n

/-- `session.query(func.count(Student.id))` (source line 127). -/
def countStudents (db : Store) : Nat :=
  db.rows.length

/-- The declared length of the `email` column, `Column(String(55))`
(source line 36).  SQLite treats it as documentation only. -/
def emailColumnLength : Nat :=
  55

/-! ### Concrete data, mirroring the script and the testable-property scenarios -/

def einsteinName : String := "Albert Einstein"

def einsteinEmail : String := "albert.einstein@zurich.edu"

def turingName : String := "Alan Turing"

def turingEmail : String := "alan.turing@sherborne.edu"

def carolName : String := "Carol Shaw"

def carolEmail : String := "carol.shaw@atari.edu"

def aliceName : String := "Alice"

def aliceEmailA : String := "alice.one@x.edu"

def aliceEmailB : String := "alice.two@x.edu"

def longEmail : String := "this.email.address.is.definitely.longer.than.fifty.five.characters@example.edu"

/-- The module-load timestamp of the modelled run. -/
def storeStart : Store := { rows := [], loadTime := 100 }

def einstein : Student :=
  constructStudent (some einsteinName) (some einsteinEmail) (some 6) (some 18790314)

def turing : Student :=
  constructStudent (some turingName) (some turingEmail) (some 11) (some 19120623)

def carol : Student :=
  constructStudent (some carolName) (some carolEmail) (some 9) none

def aliceA : Student :=
  constructStudent (some aliceName) (some aliceEmailA) (some 5) none

def aliceB : Student :=
  constructStudent (some aliceName) (some aliceEmailB) (some 7) none

def badStudent : Student := constructStudent none none (some 0) none

def longStudent : Student := constructStudent none (some longEmail) none none

def noGradeStudent : Student := constructStudent none none none none

/-- The row stored for `einstein` by the first commit of the script. -/
def einsteinRow : Student := { einstein with id := some 1, enrolled_date := some 100 }

/-- The row stored for `turing` by the second commit of the script. -/
def turingRow : Student := { turing with id := some 2, enrolled_date := some 100 }

def carolRow : Student := { carol with id := some 3, enrolled_date := some 100 }

def aliceARow : Student := { aliceA with id := some 1, enrolled_date := some 100 }

/-- The store after the first commit of the script. -/
def dbOne : Store := { rows := [einsteinRow], loadTime := 100 }

/-- The store after both commits of the script. -/
def dbTwo : Store := { rows := [einsteinRow, turingRow], loadTime := 100 }

def dbTwoPlusCarol : Store := { rows := [einsteinRow, turingRow, carolRow], loadTime := 100 }

/-- A reachable store holding two distinct students that share a name. -/
def dbAlice : Store := (commitStaged storeStart [aliceA, aliceB]).1

/-! ### Helper lemmas -/

lemma le_foldl_maxStep (rows : List Student) (init : Nat) :
    init ≤ rows.foldl (fun m r => max m (r.id.getD 0)) init := by
  induction rows generalizing init with
  | nil => simp
  | cons a t ih =>
    simp only [List.foldl_cons]
    exact le_trans (le_max_left _ _) (ih _)

lemma id_le_foldl (rows : List Student) (r : Student) (h : r ∈ rows) (init : Nat) :
    r.id.getD 0 ≤ rows.foldl (fun m x => max m (x.id.getD 0)) init := by
  induction rows generalizing init with
  | nil => cases h
  | cons a t ih =>
    simp only [List.foldl_cons]
    rcases List.mem_cons.mp h with h | h
    · subst h
      exact le_trans (le_max_right _ _) (le_foldl_maxStep t _)
    · exact ih h _

lemma id_le_maxId {rows : List Student} {r : Student} (h : r ∈ rows) :
    r.id.getD 0 ≤ maxId rows :=
  id_le_foldl rows r h 0

/-- The freshly generated id collides with no stored row. -/
lemma all_id_ne_nextId (rows : List Student) :
    rows.all (fun r => decide (r.id ≠ some (nextId rows))) = true := by
  rw [List.all_eq_true]
  intro r hr
  simp only [decide_eq_true_eq]
  intro hcontra
  have hle : r.id.getD 0 ≤ maxId rows := id_le_maxId hr
  rw [hcontra, Option.getD_some] at hle
  simp only [nextId] at hle
  omega

lemma applyDefaults_email (db : Store) (s : Student) :
    (applyDefaults db s).email = s.email := rfl

lemma applyDefaults_grade (db : Store) (s : Student) :
    (applyDefaults db s).grade = s.grade := rfl

lemma withId_email (s : Student) (i : Option Nat) :
    ({ s with id := i } : Student).email = s.email := rfl

lemma insertStudent_eq_ok {db : Store} {s : Student} {db' : Store}
    (h : insertStudent db s = Except.ok db') :
    db' = { db with rows :=
        db.rows ++ [{ applyDefaults db s with id := some (s.id.getD (nextId db.rows)) }] } ∧
      gradeCheckOk s.grade = true ∧ emailOk db.rows s.email = true := by
  unfold insertStudent at h
  by_cases hc : (gradeCheckOk s.grade && emailOk db.rows s.email
      && db.rows.all (fun r => decide (r.id ≠ some (s.id.getD (nextId db.rows))))) = true
  · rw [if_pos hc] at h
    injection h with h2
    simp only [Bool.and_eq_true] at hc
    exact ⟨h2.symm, hc.1.1, hc.1.2⟩
  · rw [if_neg hc] at h
    exact (Except.noConfusion h)

lemma insertStudent_ok_of (db : Store) (s : Student) (hid : s.id = none)
    (hg : gradeCheckOk s.grade = true) (he : emailOk db.rows s.email = true) :
    insertStudent db s =
      Except.ok { db with rows :=
        db.rows ++ [{ applyDefaults db s with id := some (nextId db.rows) }] } := by
  have hall := all_id_ne_nextId db.rows
  rw [List.all_eq_true] at hall
  simp only [decide_eq_true_eq] at hall
  simp [insertStudent, hid, hg, he]
  exact hall

lemma commitStaged_singleton (db : Store) (s : Student) :
    commitStaged db [s] =
      match insertStudent db s with
      | Except.ok db' => (db', none)
      | Except.error e => (db, some e) := by
  cases hi : insertStudent db s <;>
    simp [commitStaged, commitStaged.commitLoop, hi]

lemma commitStaged_singleton_ok {db db' : Store} {s : Student}
    (h : commitStaged db [s] = (db', none)) :
    insertStudent db s = Except.ok db' := by
  rw [commitStaged_singleton] at h
  cases hi : insertStudent db s with
  | ok d =>
    rw [hi] at h
    injection h with h1 h2
    rw [h1]
  | error e =>
    rw [hi] at h
    injection h with h1 h2
    exact absurd h2 (by simp)

lemma gradeGE_refl (a : Option Int) : gradeGE a a = true := by
  cases a <;> simp [gradeGE]

lemma gradeGE_total (a b : Option Int) : gradeGE a b = true ∨ gradeGE b a = true := by
  cases a <;> cases b <;> simp [gradeGE] <;> omega

lemma gradeGE_trans (a b c : Option Int) (hab : gradeGE a b = true)
    (hbc : gradeGE b c = true) : gradeGE a c = true := by
  cases a <;> cases b <;> cases c <;> simp_all [gradeGE] <;> omega

instance : IsTotal Student gradeDescRel :=
  ⟨fun a b => gradeGE_total a.grade b.grade⟩

instance : IsTrans Student gradeDescRel :=
  ⟨fun _ _ _ hab hbc => gradeGE_trans _ _ _ hab hbc⟩

/-! ### Claim theorems -/

/-- C1: for any two Student records with the same (non-NULL) email, if the
first commits successfully, committing the second raises a constraint
violation and the committed state is exactly the state before that commit —
no partial row for the second student is persisted. -/
theorem duplicate_email_second_commit_fails (db db1 : Store) (s1 s2 : Student)
    (e : String) (h1 : commitStaged db [s1] = (db1, none))
    (he1 : s1.email = some e) (he2 : s2.email = some e) :
    commitStaged db1 [s2] = (db1, some DbError.ConstraintViolation) := by
  have hins : insertStudent db s1 = Except.ok db1 := commitStaged_singleton_ok h1
  obtain ⟨hdb1, _, _⟩ := insertStudent_eq_ok hins
  have hfail : emailOk db1.rows (some e) = false := by
    rw [hdb1]
    simp only [emailOk, List.all_append, List.all_cons, List.all_nil,
      withId_email, applyDefaults_email, he1]
    simp
  have herr : insertStudent db1 s2 = Except.error DbError.ConstraintViolation := by
    unfold insertStudent
    rw [he2, hfail]
    simp
  rw [commitStaged_singleton, herr]

/-- C1 witness: committing the script student `einstein` and then a second
student with the same email address fails and leaves the store `dbOne`
unchanged. -/
theorem duplicate_email_witness :
    commitStaged dbOne [constructStudent (some carolName) (some einsteinEmail) (some 3) none]
      = (dbOne, some DbError.ConstraintViolation) :=
  duplicate_email_second_commit_fails storeStart dbOne einstein
    (constructStudent (some carolName) (some einsteinEmail) (some 3) none)
    einsteinEmail (by decide) rfl rfl

/-- C2: committing a Student whose grade is an integer outside 1..12 fails
with a constraint violation and leaves the store unchanged, while any grade
inside 1..12 passes the grade check. -/
theorem grade_range_enforced_on_commit :
    (∀ (db : Store) (s : Student) (g : Int), s.grade = some g → (g < 1 ∨ 12 < g) →
      commitStaged db [s] = (db, some DbError.ConstraintViolation)) ∧
    (∀ g : Int, 1 ≤ g → g ≤ 12 → gradeCheckOk (some g) = true) := by
  constructor
  · intro db s g hg hout
    have hgc : gradeCheckOk s.grade = false := by
      rw [hg]
      simp [gradeCheckOk]
      omega
    have herr : insertStudent db s = Except.error DbError.ConstraintViolation := by
      unfold insertStudent
      rw [hgc]
      simp
    rw [commitStaged_singleton, herr]
  · intro g h1 h2
    simp only [gradeCheckOk, decide_eq_true_eq]
    exact ⟨h1, h2⟩

/-- C2 witness: a student with grade 0 is rejected on commit against the
empty store, and grade 6 passes the check. -/
theorem grade_range_witness :
    commitStaged storeStart [badStudent] = (storeStart, some DbError.ConstraintViolation) ∧
    gradeCheckOk (some 6) = true :=
  ⟨grade_range_enforced_on_commit.1 storeStart badStudent 0 rfl (Or.inl (by decide)),
   grade_range_enforced_on_commit.2 6 (by decide) (by decide)⟩

/-- C3: evaluating the code at the failing input.  The script is loaded at
time 100, `einstein` and `turing` are constructed later (the constructor
never reads the clock) and committed in two separate commits; both stored
rows carry `enrolled_date = 100`, the single timestamp captured by
`default=datetime.now()` at class-definition time.  The two records were
constructed at different moments yet received equal defaults, so the
defaults are not the moments of record construction. -/
theorem enrolled_date_is_load_time_for_all :
    (commitStaged (commitStaged storeStart [einstein]).1 [turing]).1.rows.map
        Student.enrolled_date = [some storeStart.loadTime, some storeStart.loadTime] := by
  decide

/-- C4: on a non-empty store, ordering by grade descending and taking the
first element yields exactly one committed record whose grade is at least
the grade of every committed record. -/
theorem order_by_grade_desc_limit_one (db : Store) (hne : db.rows ≠ []) :
    ∃ m, limit 1 (orderByGradeDesc db.rows) = [m] ∧ m ∈ db.rows ∧
      ∀ r ∈ db.rows, gradeGE m.grade r.grade = true := by
  have hperm : List.Perm (orderByGradeDesc db.rows) db.rows :=
    List.perm_insertionSort _ _
  have hsort : List.Sorted gradeDescRel (orderByGradeDesc db.rows) :=
    List.sorted_insertionSort _ _
  cases hs : orderByGradeDesc db.rows with
  | nil =>
    rw [hs] at hperm
    exact absurd (List.Perm.eq_nil hperm.symm) hne
  | cons m t =>
    rw [hs] at hperm hsort
    refine ⟨m, ?_, ?_, ?_⟩
    · rw [limit]
      rfl
    · exact hperm.mem_iff.mp (List.mem_cons_self m t)
    · intro r hr
      rcases List.mem_cons.mp (hperm.mem_iff.mpr hr) with h | h
      · rw [h]
        exact gradeGE_refl m.grade
      · exact List.rel_of_sorted_cons hsort r h

/-- C4 witness: on the two-student store of the script the query returns one
record dominating both grades. -/
theorem order_by_witness :
    ∃ m, limit 1 (orderByGradeDesc dbTwo.rows) = [m] ∧ m ∈ dbTwo.rows ∧
      ∀ r ∈ dbTwo.rows, gradeGE m.grade r.grade = true :=
  order_by_grade_desc_limit_one dbTwo (by decide)

/-- C5 counterexample: the claim as stated is false for queries by name.
`dbAlice` is reached by committing two distinct students that share the
name `Alice`; after deleting the first (id 1) and committing, a query
filtered by the deleted record former name still returns a row. -/
theorem delete_then_query_by_name_nonempty :
    aliceARow ∈ dbAlice.rows ∧ aliceARow.name = some aliceName ∧
    queryByName (deleteStudent dbAlice aliceARow) aliceName ≠ [] := by
  decide

/-- C5 amended: after deleting a committed student and committing, a query
by its former id returns an empty result (and raises no error, queries
being total functions), and a query by its former name returns no row
carrying the deleted id — it is empty whenever no other student shares the
name. -/
theorem delete_then_query_former_identity (db : Store) (s : Student) (i : Nat)
    (n : String) (hid : s.id = some i) :
    queryById (deleteStudent db s) (some i) = [] ∧
    ∀ r ∈ queryByName (deleteStudent db s) n, r.id ≠ some i := by
  constructor
  · unfold queryById deleteStudent
    rw [List.filter_eq_nil_iff]
    intro a ha
    have h2 := (List.mem_filter.mp ha).2
    simp only [decide_eq_true_eq] at h2 ⊢
    rw [hid] at h2
    exact h2
  · intro r hr
    unfold queryByName deleteStudent at hr
    have h2 := (List.mem_filter.mp ((List.mem_filter.mp hr).1)).2
    simp only [decide_eq_true_eq] at h2
    rw [hid] at h2
    exact h2

/-- C5 witness: deleting `einstein` (id 1) from the script store, the query
by id 1 is empty and no row of the name query carries id 1. -/
theorem delete_witness :
    queryById (deleteStudent dbTwo einsteinRow) (some 1) = [] ∧
    ∀ r ∈ queryByName (deleteStudent dbTwo einsteinRow) einsteinName, r.id ≠ some 1 :=
  delete_then_query_former_identity dbTwo einsteinRow 1 einsteinName rfl

/-- C6: a Student built by the constructor has no id, and when a commit of a
staged student with unset id succeeds, the stored row carries a non-null
id. -/
theorem commit_assigns_nonnull_id :
    (∀ nm em g b, (constructStudent nm em g b).id = none) ∧
    (∀ (db db' : Store) (s : Student), s.id = none → commitStaged db [s] = (db', none) →
      ∃ i r, db'.rows.getLast? = some r ∧ r.id = some i) := by
  constructor
  · intro nm em g b
    rfl
  · intro db db' s hid hc
    have hins : insertStudent db s = Except.ok db' := commitStaged_singleton_ok hc
    obtain ⟨hdb', _, _⟩ := insertStudent_eq_ok hins
    refine ⟨s.id.getD (nextId db.rows),
      { applyDefaults db s with id := some (s.id.getD (nextId db.rows)) }, ?_, rfl⟩
    rw [hdb']
    exact List.getLast?_concat db.rows

/-- C6 witness: `einstein` is constructed with no id and its commit against
the fresh store produces `dbOne`, whose row has id 1. -/
theorem commit_id_witness :
    (constructStudent (some einsteinName) (some einsteinEmail) (some 6) (some 18790314)).id
        = none ∧
    ∃ i r, dbOne.rows.getLast? = some r ∧ r.id = some i :=
  ⟨commit_assigns_nonnull_id.1 (some einsteinName) (some einsteinEmail) (some 6)
      (some 18790314),
   commit_assigns_nonnull_id.2 storeStart dbOne einstein rfl (by decide)⟩

/-- C7: the bulk grade increment either succeeds, replacing every stored row
by the same row with grade increased by one (`incGrade`) with every
resulting grade passing the 1..12 check, or fails as a whole with a
constraint violation leaving the store unchanged. -/
theorem update_grades_all_or_nothing (db : Store) :
    (updateAllGradesPlusOne db = ({ db with rows := db.rows.map incGrade }, none) ∧
      ∀ r ∈ (updateAllGradesPlusOne db).1.rows, gradeCheckOk r.grade = true) ∨
    updateAllGradesPlusOne db = (db, some DbError.ConstraintViolation) := by
  by_cases h : (db.rows.map incGrade).all (fun r => gradeCheckOk r.grade) = true
  · left
    have heq : updateAllGradesPlusOne db = ({ db with rows := db.rows.map incGrade }, none) := by
      unfold updateAllGradesPlusOne
      rw [if_pos h]
    refine ⟨heq, ?_⟩
    intro r hr
    rw [heq] at hr
    exact List.all_eq_true.mp h r hr
  · right
    unfold updateAllGradesPlusOne
    rw [if_neg h]

/-- C7 witness: the disjunction instantiated at the two-student store of the
script (there it takes the success branch: grades 6 and 11 become 7 and
12). -/
theorem update_grades_witness :
    (updateAllGradesPlusOne dbTwo = ({ dbTwo with rows := dbTwo.rows.map incGrade }, none) ∧
      ∀ r ∈ (updateAllGradesPlusOne dbTwo).1.rows, gradeCheckOk r.grade = true) ∨
    updateAllGradesPlusOne dbTwo = (dbTwo, some DbError.ConstraintViolation) :=
  update_grades_all_or_nothing dbTwo

/-- C8 counterexample: ids are reused after deletion.  In the script store,
`turing` holds id 2; after deleting that row and committing `carol`, the
new row is assigned the deleted id 2 (SQLite assigns max id + 1, with no
memory of deleted rows). -/
theorem deleted_id_reused :
    turingRow.id = some 2 ∧ turingRow ∈ dbTwo.rows ∧
    (commitStaged (deleteStudent dbTwo turingRow) [carol]).1.rows.map Student.id
      = [some 1, some 2] := by
  decide

/-- C8 amended: no modelled operation mutates the id of a surviving row —
inserts keep every existing row, the bulk update preserves all ids, and
delete only removes rows — but ids are not retired: an insert with unset id
is always assigned `nextId` computed from the current rows only, so the id
of a deleted student can be assigned again. -/
theorem id_immutable_but_reusable :
    (∀ (db : Store) (s : Student) (db' : Store), insertStudent db s = Except.ok db' →
      ∀ r ∈ db.rows, r ∈ db'.rows) ∧
    (∀ db : Store, (updateAllGradesPlusOne db).1.rows.map Student.id
      = db.rows.map Student.id) ∧
    (∀ (db : Store) (s : Student), ∀ r ∈ (deleteStudent db s).rows, r ∈ db.rows) ∧
    (∀ (db : Store) (s : Student), s.id = none →
      insertStudent db s = Except.ok { db with rows :=
        db.rows ++ [{ applyDefaults db s with id := some (nextId db.rows) }] } ∨
      insertStudent db s = Except.error DbError.ConstraintViolation) := by
  refine ⟨?_, ?_, ?_, ?_⟩
  · intro db s db' h r hr
    obtain ⟨hdb', _, _⟩ := insertStudent_eq_ok h
    rw [hdb']
    exact List.mem_append_left _ hr
  · intro db
    by_cases h : (db.rows.map incGrade).all (fun r => gradeCheckOk r.grade) = true
    · unfold updateAllGradesPlusOne
      rw [if_pos h]
      rw [List.map_map]
      rfl
    · unfold updateAllGradesPlusOne
      rw [if_neg h]
  · intro db s r hr
    exact (List.mem_filter.mp hr).1
  · intro db s hid
    unfold insertStudent
    simp only [hid, Option.getD_none]
    by_cases h : (gradeCheckOk s.grade && emailOk db.rows s.email
        && db.rows.all (fun r => decide (r.id ≠ some (nextId db.rows)))) = true
    · left
      rw [if_pos h]
    · right
      rw [if_neg h]

/-- C8 witness: the first conjunct applied at the script store and `carol`:
the row of `einstein` survives the insert unchanged. -/
theorem id_immutable_witness : einsteinRow ∈ dbTwoPlusCarol.rows :=
  id_immutable_but_reusable.1 dbTwo carol dbTwoPlusCarol (by rfl) einsteinRow (by decide)

/-- C9 counterexample: the email column is declared with length 55, yet a
student whose email is longer commits successfully and the full text is
stored — the length is not enforced at write time. -/
theorem over_length_email_commit_succeeds :
    emailColumnLength < longEmail.length ∧
    (commitStaged storeStart [longStudent]).2 = none ∧
    (commitStaged storeStart [longStudent]).1.rows.map Student.email = [some longEmail] := by
  decide

/-- C9 amended: the schema declares the email column with length 55, but the
store does not enforce it: success of an insert depends only on the grade
check, email uniqueness and the primary key, and the email value — of any
length — is stored unchanged. -/
theorem email_length_not_enforced :
    emailColumnLength = 55 ∧
    (∀ (db : Store) (s : Student), (applyDefaults db s).email = s.email) ∧
    (∀ (db : Store) (s : Student), s.id = none → gradeCheckOk s.grade = true →
      emailOk db.rows s.email = true →
      insertStudent db s = Except.ok { db with rows :=
        db.rows ++ [{ applyDefaults db s with id := some (nextId db.rows) }] }) := by
  refine ⟨rfl, fun db s => rfl, ?_⟩
  intro db s hid hg he
  exact insertStudent_ok_of db s hid hg he

/-- C9 witness: the third conjunct applied to the 79-character email
student against the fresh store. -/
theorem email_length_witness :
    insertStudent storeStart longStudent = Except.ok { storeStart with rows :=
      storeStart.rows ++
        [{ applyDefaults storeStart longStudent with id := some (nextId storeStart.rows) }] } :=
  email_length_not_enforced.2.2 storeStart longStudent rfl rfl rfl

/-- C10: a student with no grade value passes the grade check (the SQL CHECK
is not violated by NULL), so with an unset id and a non-colliding email its
commit succeeds and appends the row. -/
theorem null_grade_commit_succeeds (db : Store) (s : Student)
    (hg : s.grade = none) (hid : s.id = none) (he : emailOk db.rows s.email = true) :
    commitStaged db [s] = ({ db with rows :=
      db.rows ++ [{ applyDefaults db s with id := some (nextId db.rows) }] }, none) := by
  have hgc : gradeCheckOk s.grade = true := by
    rw [hg]
    rfl
  rw [commitStaged_singleton, insertStudent_ok_of db s hid hgc he]

/-- C10 witness: a student with every field unset commits successfully
against the fresh store. -/
theorem null_grade_witness :
    commitStaged storeStart [noGradeStudent] = ({ storeStart with rows :=
      storeStart.rows ++
        [{ applyDefaults storeStart noGradeStudent with id := some (nextId storeStart.rows) }] },
      none) :=
  null_grade_commit_succeeds storeStart noGradeStudent rfl rfl rfl
